import Mathlib

/-!
Verification of `paddle/fluid/platform/device_tracer.cc` (GPU execution
tracer).  The C++ tracer `DeviceTracerImpl` keeps, under one mutex, a
correlation table `correlations_ : unordered_map<uint32_t, string>`, an
append-only log `kernel_records_ : vector<KernelRecord>`, a flag `enabled_`
and session timestamps `start_ns_` / `end_ns_`.  We embed that state and
the methods `AddAnnotation`, `AddKernelRecords`, `IsEnabled`, `Enable`,
`Disable`, `GenProfile`, the static `ApiCallback`, the thread-local
current-annotation slot, and the inert `DeviceTracerDummy`.

Naming: the C++ identifiers ending in "Annotation" are embedded under the
shortened names `AddAnno`, `SetCurAnno`, `ClearCurAnno` (the tail of the
original identifier collides with a Lean keyword-like token); every other
name follows the source.
-/

set_option autoImplicit false

namespace DeviceTracer

/-- 2^64, the modulus of the C++ `uint64_t` arithmetic. -/
def UINT64_MOD : Nat := 2 ^ 64

/-- `uint64_t` subtraction `a - b` (wrapping), on canonical representatives. -/
def sub64 (a b : Nat) : Nat :=
  (a % UINT64_MOD + (UINT64_MOD - b % UINT64_MOD)) % UINT64_MOD

/-- The C++ `KernelRecord` struct: raw timing of one completed kernel
(`start_ns`, `end_ns` are `uint64_t`; ids are `uint32_t`). -/
structure KernelRecord where
  start_ns : Nat
  end_ns : Nat
  device_id : Nat
  stream_id : Nat
  correlation_id : Nat
  deriving DecidableEq, Repr

/-- One `proto::Profile::Event`: fields set by `GenProfile` lines 191-196. -/
structure Event where
  name : String
  start_ns : Nat
  end_ns : Nat
  device_id : Nat
  stream_id : Nat
  deriving DecidableEq, Repr

/-- The `proto::Profile` message built by `GenProfile`: session bounds and
the event sequence in emission order. -/
structure Profile where
  start_ns : Nat
  end_ns : Nat
  events : List Event
  deriving DecidableEq, Repr

/-- Lookup in the correlation table, embedding
`correlations_.find(id)` / `correlations_.at(id)` on the
`unordered_map<uint32_t, string>` modelled as an association list with
distinct keys. -/
def mapFind (m : List (Nat × String)) (k : Nat) : Option String :=
  match m with
  | [] => none
  | (k1, v) :: rest => if k1 = k then some v else mapFind rest k

/-- Store into the correlation table, embedding `correlations_[id] = anno`:
`operator[]` inserts the key if absent and the assignment overwrites the
mapped value in place. -/
def mapInsert (m : List (Nat × String)) (k : Nat) (v : String) :
    List (Nat × String) :=
  match m with
  | [] => [(k, v)]
  | (k1, v1) :: rest =>
      if k1 = k then (k1, v) :: rest else (k1, v1) :: mapInsert rest k v

/-- The mutable member state of `DeviceTracerImpl` (lines 238-243), minus
the mutex and the opaque subscriber handle. -/
structure TracerState where
  enabled : Bool
  start_ns : Nat
  end_ns : Nat
  kernel_records : List KernelRecord
  correlations : List (Nat × String)
  deriving DecidableEq, Repr

/-- `DeviceTracerImpl::DeviceTracerImpl()` sets `enabled_(false)`; the
timestamps are indeterminate in C++, taken as 0 here, and the containers
start empty. -/
def initialState : TracerState :=
  { enabled := false, start_ns := 0, end_ns := 0,
    kernel_records := [], correlations := [] }

/-- `DeviceTracerImpl::AddAnnotation(id, anno)` (lines 135-138):
`correlations_[id] = anno` under the lock. -/
def AddAnno (s : TracerState) (id : Nat) (anno : String) : TracerState :=
  { s with correlations := mapInsert s.correlations id anno }

/-- `DeviceTracerImpl::AddKernelRecords` (lines 140-145): push_back of a
`KernelRecord` built from the five arguments. -/
def AddKernelRecords (s : TracerState) (start stop device_id stream_id
    correlation_id : Nat) : TracerState :=
  { s with kernel_records := s.kernel_records ++
      [{ start_ns := start, end_ns := stop, device_id := device_id,
         stream_id := stream_id, correlation_id := correlation_id }] }

/-- `DeviceTracerImpl::IsEnabled` (lines 147-150): reads `enabled_`. -/
def IsEnabled (s : TracerState) : Bool := s.enabled

/-- Status of one CUPTI call, as the tracer distinguishes them:
`CUPTI_SUCCESS`, `CUPTI_ERROR_MAX_LIMIT_REACHED`, or any other error. -/
inductive CuptiResult where
  | success
  | maxLimitReached
  | otherError
  deriving DecidableEq, Repr

/-- Outcomes of the external CUPTI calls made during `Enable`, plus the
timestamp the source would report.  `activityRet` stands for the
`cuptiActivityEnable` calls in `EnableActivity`, `registerRet` for
`cuptiActivityRegisterCallbacks`, `subscribeRet` for `cuptiSubscribe`,
`enableCallbackRet` for `cuptiEnableCallback`, `timestampRet` for
`cuptiGetTimestamp`. -/
structure CuptiEnv where
  activityRet : CuptiResult
  registerRet : CuptiResult
  subscribeRet : CuptiResult
  enableCallbackRet : CuptiResult
  timestampRet : CuptiResult
  now : Nat
  deriving DecidableEq, Repr

/-- `DeviceTracerImpl::Enable` (lines 152-178).  Returns `none` when a
`CUPTI_CALL`-wrapped call fails (the macro prints and calls `exit(-1)`,
aborting the process), otherwise the new state and the warning lines
printed to stderr.  Note the `cuptiSubscribe` result is NOT wrapped in
`CUPTI_CALL`: both the max-limit status and any other non-success status
only print a message, and execution falls through to
`cuptiEnableCallback`, the timestamp capture and `enabled_ = true`. -/
def Enable (s : TracerState) (env : CuptiEnv) :
    Option (TracerState × List String) :=
  if s.enabled then some (s, [ "DeviceTracer already enabled" ])
  else if env.activityRet ≠ CuptiResult.success then none
  else if env.registerRet ≠ CuptiResult.success then none
  else
    let warns :=
      if env.subscribeRet = CuptiResult.maxLimitReached then
        [ "CUPTI subcriber limit reached." ]
      else if env.subscribeRet ≠ CuptiResult.success then
        [ "Failed to create CUPTI subscriber." ]
      else []
    if env.enableCallbackRet ≠ CuptiResult.success then none
    else if env.timestampRet ≠ CuptiResult.success then none
    else some ({ s with start_ns := env.now, enabled := true }, warns)

/-- `DeviceTracerImpl::Disable` (lines 209-218).  There is no
already-disabled guard: the method unconditionally flushes (which may
append further kernel records through the completion callback, here the
`flushed` argument), disables activities, unsubscribes, overwrites
`end_ns_` with a fresh timestamp and clears `enabled_`.  The external
calls that abort the process on failure are taken as succeeding. -/
def Disable (s : TracerState) (flushed : List KernelRecord) (now : Nat) :
    TracerState :=
  { s with kernel_records := s.kernel_records ++ flushed,
           end_ns := now, enabled := false }

/-- The event `GenProfile` emits for one resolvable record (lines 191-196):
name from the correlation table, timing/device/stream copied from the
record. -/
def eventOf (r : KernelRecord) (anno : String) : Event :=
  { name := anno, start_ns := r.start_ns, end_ns := r.end_ns,
    device_id := r.device_id, stream_id := r.stream_id }

/-- The loop of `GenProfile` (lines 186-198) restricted to event emission:
records whose correlation id misses the table are skipped (`continue`
after the stderr message), the rest append one event each, in log order. -/
def genEvents (corr : List (Nat × String)) :
    List KernelRecord → List Event
  | [] => []
  | r :: rest =>
      match mapFind corr r.correlation_id with
      | none => genEvents corr rest
      | some anno => eventOf r anno :: genEvents corr rest

/-- The number of `"cannot relate a kernel activity"` messages the loop of
`GenProfile` prints: one per record whose correlation id misses the
table. -/
def unresolvedCount (corr : List (Nat × String)) :
    List KernelRecord → Nat
  | [] => 0
  | r :: rest =>
      match mapFind corr r.correlation_id with
      | none => unresolvedCount corr rest + 1
      | some _ => unresolvedCount corr rest

/-- The durations pushed into `event_times[name]` by the loop of
`GenProfile` (line 197), in push order: `r.end_ns - r.start_ns` in
`uint64_t` arithmetic, for each record resolving to `name`. -/
def eventTimesFor (corr : List (Nat × String)) (name : String) :
    List KernelRecord → List Nat
  | [] => []
  | r :: rest =>
      match mapFind corr r.correlation_id with
      | none => eventTimesFor corr name rest
      | some anno =>
          if anno = name then
            sub64 r.end_ns r.start_ns :: eventTimesFor corr name rest
          else eventTimesFor corr name rest

/-- `DeviceTracerImpl::GenProfile` (lines 180-207): the returned
`proto::Profile` carries `start_ns_`, `end_ns_` and the joined events. -/
def GenProfile (s : TracerState) : Profile :=
  { start_ns := s.start_ns, end_ns := s.end_ns,
    events := genEvents s.correlations s.kernel_records }

/-- `GenProfile` as a transition on the member state: the body only reads
the members (it writes the local `profile_pb` and `event_times` and prints
to stderr), so the state after the call is the state before it. -/
def GenProfileStep (s : TracerState) : Profile × TracerState :=
  (GenProfile s, s)

/-- The thread-local `cur_annotation` slot: `SetCurAnnotation(anno)`
stores the pointer (line 280); `none` models the null pointer. -/
def SetCurAnno (anno : String) : Option String := some anno

/-- `ClearCurAnnotation()` (line 282): resets the slot to null. -/
def ClearCurAnno : Option String := none

/-- A `CUpti_CallbackDomain` as the callback inspects it. -/
inductive CallbackDomain where
  | driverApi
  | other
  deriving DecidableEq, Repr

/-- A `CUpti_CallbackId` as the callback inspects it. -/
inductive CallbackId where
  | cuLaunchKernel
  | other
  deriving DecidableEq, Repr

/-- A `CUpti_ApiCallbackSite`. -/
inductive CallbackSite where
  | enter
  | exit
  deriving DecidableEq, Repr

/-- The fields of `CUpti_CallbackData` read by `ApiCallback`. -/
structure CallbackData where
  callbackSite : CallbackSite
  symbolName : String
  correlationId : Nat
  deriving DecidableEq, Repr

/-- `DeviceTracerImpl::ApiCallback` (lines 221-236): on a driver-API
`cuLaunchKernel` enter notification it stores, for the notification's
correlation id, the calling thread's current annotation when set, else
`cbInfo->symbolName`; every other notification leaves the state alone. -/
def ApiCallback (curAnno : Option String) (domain : CallbackDomain)
    (cbid : CallbackId) (cbInfo : CallbackData) (s : TracerState) :
    TracerState :=
  if domain = CallbackDomain.driverApi ∧ cbid = CallbackId.cuLaunchKernel then
    if cbInfo.callbackSite = CallbackSite.enter then
      AddAnno s cbInfo.correlationId
        (match curAnno with
         | some anno => anno
         | none => cbInfo.symbolName)
    else s
  else s

/-- `DeviceTracerDummy` (lines 249-265) has no member state at all. -/
structure DummyState where
  deriving DecidableEq, Repr

/-- `DeviceTracerDummy::AddAnnotation`: empty body. -/
def DummyAddAnno (s : DummyState) (id : Nat) (anno : String) : DummyState :=
  s

/-- `DeviceTracerDummy::AddKernelRecords`: empty body. -/
def DummyAddKernelRecords (s : DummyState) (start stop device_id stream_id
    correlation_id : Nat) : DummyState :=
  s

/-- `DeviceTracerDummy::IsEnabled`: `return false`. -/
def DummyIsEnabled (s : DummyState) : Bool := false

/-- `DeviceTracerDummy::Enable`: empty body. -/
def DummyEnable (s : DummyState) : DummyState := s

/-- `DeviceTracerDummy::Disable`: empty body. -/
def DummyDisable (s : DummyState) : DummyState := s

/-- `DeviceTracerDummy::GenProfile`: `return proto::Profile()`, the
default message — zero timestamps, no events. -/
def DummyGenProfile (s : DummyState) : Profile :=
  { start_ns := 0, end_ns := 0, events := [] }

/-- The concrete scenario of the spec: thread annotated "matmul_0", launch
with correlation id 7 observed by the enter callback, then the completion
record KernelRecord{1000, 1500, 0, 1, 7} delivered. -/
def c3State : TracerState :=
  AddKernelRecords
    (ApiCallback (SetCurAnno "matmul_0") CallbackDomain.driverApi
      CallbackId.cuLaunchKernel
      { callbackSite := CallbackSite.enter, symbolName := "sym7",
        correlationId := 7 }
      initialState)
    1000 1500 0 1 7

/-- Two `AddAnnotation` calls for the same correlation id 7 with different
texts. -/
def c5State : TracerState :=
  AddAnno (AddAnno initialState 7 "op_a") 7 "op_b"

/-- A CUPTI environment in which `cuptiSubscribe` fails with an error that
is neither success nor the max-limit status, while every
`CUPTI_CALL`-wrapped call succeeds. -/
def env6 : CuptiEnv :=
  { activityRet := CuptiResult.success, registerRet := CuptiResult.success,
    subscribeRet := CuptiResult.otherError,
    enableCallbackRet := CuptiResult.success,
    timestampRet := CuptiResult.success, now := 5 }

/-- A state holding one well-formed record (start 1000 ≤ end 1500) whose
id 7 resolves, and one (start 20 ≤ end 30) whose id 99 does not. -/
def c9State : TracerState :=
  { enabled := false, start_ns := 0, end_ns := 0,
    kernel_records :=
      [ { start_ns := 1000, end_ns := 1500, device_id := 0, stream_id := 1,
          correlation_id := 7 },
        { start_ns := 20, end_ns := 30, device_id := 0, stream_id := 2,
          correlation_id := 99 } ],
    correlations := [(7, "matmul_0")] }

end DeviceTracer

namespace DeviceTracer

/-- The event-emission loop of `GenProfile` is an order-preserving
`filterMap` over the kernel record log. -/
theorem genEvents_eq_filterMap (corr : List (Nat × String))
    (rs : List KernelRecord) :
    genEvents corr rs =
      rs.filterMap
        (fun r => (mapFind corr r.correlation_id).map (eventOf r)) := by
  induction rs with
  | nil => rfl
  | cons r rest ih =>
      simp only [genEvents, List.filterMap_cons]
      cases mapFind corr r.correlation_id <;> simp [ih]

/-- The number of emitted events is the number of records whose
correlation id resolves in the table. -/
theorem genEvents_length (corr : List (Nat × String))
    (rs : List KernelRecord) :
    (genEvents corr rs).length =
      rs.countP (fun r => (mapFind corr r.correlation_id).isSome) := by
  induction rs with
  | nil => rfl
  | cons r rest ih =>
      simp only [genEvents, List.countP_cons]
      cases mapFind corr r.correlation_id <;> simp [ih]

/-- The unresolved counter counts exactly the records whose correlation
id misses the table. -/
theorem unresolvedCount_eq_countP (corr : List (Nat × String))
    (rs : List KernelRecord) :
    unresolvedCount corr rs =
      rs.countP (fun r => (mapFind corr r.correlation_id).isNone) := by
  induction rs with
  | nil => rfl
  | cons r rest ih =>
      simp only [unresolvedCount, List.countP_cons]
      cases mapFind corr r.correlation_id <;> simp [ih]

/-- Lookup after store at the same key returns the stored value, for any
prior table contents. -/
theorem mapFind_mapInsert_self (m : List (Nat × String)) (k : Nat)
    (v : String) : mapFind (mapInsert m k v) k = some v := by
  induction m with
  | nil => simp [mapInsert, mapFind]
  | cons p rest ih =>
      obtain ⟨k1, v1⟩ := p
      by_cases h : k1 = k <;> simp [mapInsert, mapFind, h, ih]

/-- Every emitted event comes from a record of the log whose correlation
id resolves, and copies that record's fields. -/
theorem mem_genEvents {corr : List (Nat × String)} {rs : List KernelRecord}
    {e : Event} (he : e ∈ genEvents corr rs) :
    ∃ r ∈ rs, ∃ anno, mapFind corr r.correlation_id = some anno ∧
      e = eventOf r anno := by
  induction rs with
  | nil => simp [genEvents] at he
  | cons r rest ih =>
      cases hf : mapFind corr r.correlation_id with
      | none =>
          simp only [genEvents, hf] at he
          obtain ⟨r1, h1, anno1, h2, h3⟩ := ih he
          exact ⟨r1, List.mem_cons_of_mem _ h1, anno1, h2, h3⟩
      | some anno =>
          simp only [genEvents, hf, List.mem_cons] at he
          rcases he with h | h
          · exact ⟨r, List.mem_cons_self _ _, anno, hf, h⟩
          · obtain ⟨r1, h1, anno1, h2, h3⟩ := ih h
            exact ⟨r1, List.mem_cons_of_mem _ h1, anno1, h2, h3⟩

/-- Every duration pushed for a name comes from a record of the log that
resolves to that name, as the `uint64_t` difference of its endpoints. -/
theorem eventTimesFor_mem {corr : List (Nat × String)} {name : String}
    {rs : List KernelRecord} {d : Nat}
    (hd : d ∈ eventTimesFor corr name rs) :
    ∃ r ∈ rs, mapFind corr r.correlation_id = some name ∧
      d = sub64 r.end_ns r.start_ns := by
  induction rs with
  | nil => simp [eventTimesFor] at hd
  | cons r rest ih =>
      cases hf : mapFind corr r.correlation_id with
      | none =>
          simp only [eventTimesFor, hf] at hd
          obtain ⟨r1, h1, h2, h3⟩ := ih hd
          exact ⟨r1, List.mem_cons_of_mem _ h1, h2, h3⟩
      | some anno =>
          by_cases hn : anno = name
          · subst hn
            simp only [eventTimesFor, hf, if_pos rfl, ite_true,
              List.mem_cons] at hd
            rcases hd with h | h
            · exact ⟨r, List.mem_cons_self _ _, hf, h⟩
            · obtain ⟨r1, h1, h2, h3⟩ := ih h
              exact ⟨r1, List.mem_cons_of_mem _ h1, h2, h3⟩
          · simp only [eventTimesFor, hf, if_neg hn] at hd
            obtain ⟨r1, h1, h2, h3⟩ := ih hd
            exact ⟨r1, List.mem_cons_of_mem _ h1, h2, h3⟩

/-- Without wraparound, `uint64_t` subtraction is plain subtraction. -/
theorem sub64_eq_sub (a b : Nat) (hba : b ≤ a) (ha : a < UINT64_MOD) :
    sub64 a b = a - b := by
  have hb : b < UINT64_MOD := lt_of_le_of_lt hba ha
  unfold sub64
  rw [Nat.mod_eq_of_lt ha, Nat.mod_eq_of_lt hb]
  have h1 : a + (UINT64_MOD - b) = (a - b) + UINT64_MOD := by omega
  rw [h1, Nat.add_mod_right, Nat.mod_eq_of_lt (by omega)]

end DeviceTracer

namespace DeviceTracer

/-- C1: for every kernel record whose correlation id is present in the
correlation table, `GenProfile` emits exactly one event whose name is that
entry's text and whose start_ns, end_ns, device_id and stream_id are the
record's fields, and the events appear in the log's insertion order: the
emitted list is exactly the order-preserving `filterMap` of the log that
keeps one such event per resolvable record and nothing else. -/
theorem genProfile_resolvable_join (s : TracerState) :
    (GenProfile s).events =
      s.kernel_records.filterMap (fun r =>
        (mapFind s.correlations r.correlation_id).map (fun anno =>
          { name := anno, start_ns := r.start_ns, end_ns := r.end_ns,
            device_id := r.device_id, stream_id := r.stream_id })) :=
  genEvents_eq_filterMap s.correlations s.kernel_records

/-- C2: kernel records whose correlation id has no entry in the table
produce no event and are each counted as unresolved, and `GenProfile`
returns normally (it is a total function): the emitted events number
exactly the resolvable records, and the unresolved count numbers exactly
the unresolvable ones, so an unresolvable record contributes nothing to
the report and one unit to the unresolved count. -/
theorem genProfile_unresolvable_drop (s : TracerState) :
    (GenProfile s).events.length =
      s.kernel_records.countP
        (fun r => (mapFind s.correlations r.correlation_id).isSome) ∧
    unresolvedCount s.correlations s.kernel_records =
      s.kernel_records.countP
        (fun r => (mapFind s.correlations r.correlation_id).isNone) :=
  ⟨genEvents_length s.correlations s.kernel_records,
   unresolvedCount_eq_countP s.correlations s.kernel_records⟩

/-- C3: from the state with correlation entry (7 -> "matmul_0") and the
single record KernelRecord{1000, 1500, 0, 1, 7}, `GenProfile` returns
exactly one Event{"matmul_0", 1000, 1500, 0, 1}, and the per-name
aggregate for "matmul_0" holds one duration summing to 500 ns. -/
theorem genProfile_matmul_scenario :
    (GenProfile c3State).events =
      [ { name := "matmul_0", start_ns := 1000, end_ns := 1500,
          device_id := 0, stream_id := 1 } ] ∧
    (eventTimesFor c3State.correlations "matmul_0"
        c3State.kernel_records).sum = 500 ∧
    (eventTimesFor c3State.correlations "matmul_0"
        c3State.kernel_records).length = 1 := by
  refine ⟨?_, ?_, ?_⟩ <;> rfl

/-- C4 counterexample: the claim says Disable-while-disabled leaves the
state unchanged, but `Disable` has no already-disabled guard; called on
the freshly-constructed (disabled) tracer it overwrites `end_ns` with
the fresh timestamp 5, so the state changes. -/
theorem disable_on_disabled_not_noop :
    Disable initialState [] 5 ≠ initialState := by decide

/-- C4 amended: calling Enable while already Enabled is a
warning-reported no-op: the state, in particular `start_ns`, is unchanged
and no error is raised.  Disable, however, has no already-disabled guard:
every call, also from the Disabled state, re-runs its side effects and
overwrites `end_ns` with the fresh timestamp, leaving the tracer
Disabled; it raises no error but is not a no-op. -/
theorem enable_noop_when_enabled_disable_unguarded (s : TracerState)
    (env : CuptiEnv) (h : s.enabled = true) :
    Enable s env = some (s, [ "DeviceTracer already enabled" ]) ∧
    ∀ (t : TracerState) (flushed : List KernelRecord) (now : Nat),
      (Disable t flushed now).end_ns = now ∧
      (Disable t flushed now).enabled = false := by
  refine ⟨?_, fun t flushed now => ⟨rfl, rfl⟩⟩
  simp [Enable, h]

/-- Witness for the amended C4 theorem at a concrete enabled state. -/
theorem enable_noop_when_enabled_disable_unguarded_witness :
    ({ enabled := true, start_ns := 3, end_ns := 0, kernel_records := [],
       correlations := [] } : TracerState).enabled = true ∧
    Enable
        { enabled := true, start_ns := 3, end_ns := 0,
          kernel_records := [], correlations := [] }
        { activityRet := CuptiResult.success,
          registerRet := CuptiResult.success,
          subscribeRet := CuptiResult.success,
          enableCallbackRet := CuptiResult.success,
          timestampRet := CuptiResult.success, now := 8 } =
      some ({ enabled := true, start_ns := 3, end_ns := 0,
              kernel_records := [], correlations := [] },
            [ "DeviceTracer already enabled" ]) :=
  ⟨rfl, (enable_noop_when_enabled_disable_unguarded _ _ rfl).1⟩

/-- C5 counterexample: after AddAnnotation(7, "op_a") then
AddAnnotation(7, "op_b"), the table maps 7 to "op_b", not to the first
text "op_a": the store `correlations_[id] = anno` overwrites. -/
theorem addAnno_first_write_does_not_win :
    mapFind c5State.correlations 7 ≠ some "op_a" := by decide

/-- C5 amended: a correlation id may be rewritten within a session and
the LAST write wins: after two AddAnnotation calls with the same id, the
table maps that id to the second annotation text. -/
theorem addAnno_last_write_wins (s : TracerState) (id : Nat)
    (a b : String) :
    mapFind (AddAnno (AddAnno s id a) id b).correlations id = some b := by
  simp [AddAnno, mapFind_mapInsert_self]

/-- C6 counterexample: with `cuptiSubscribe` returning a non-success,
non-limit error and every `CUPTI_CALL`-wrapped call succeeding, Enable
from the initial state merely prints the failure message and still
proceeds: it transitions to Enabled and sets `start_ns`, contradicting
the claimed abort before callback registration. -/
theorem subscribe_error_does_not_abort_enable :
    Enable initialState env6 =
      some ({ enabled := true, start_ns := 5, end_ns := 0,
              kernel_records := [], correlations := [] },
            [ "Failed to create CUPTI subscriber." ]) := by decide

/-- C6 amended: during Enable only the `CUPTI_CALL`-wrapped setup calls
abort on failure; the subscribe call never aborts the operation: the
max-limit status prints its warning, any other non-success status prints
the subscriber-creation failure message, and in every case enabling
proceeds to register the launch callback and transitions to Enabled with
`start_ns` freshly captured. -/
theorem enable_subscribe_failure_warns_and_continues (s : TracerState)
    (env : CuptiEnv) (hdis : s.enabled = false)
    (hact : env.activityRet = CuptiResult.success)
    (hreg : env.registerRet = CuptiResult.success)
    (hcb : env.enableCallbackRet = CuptiResult.success)
    (hts : env.timestampRet = CuptiResult.success) :
    Enable s env =
      some ({ s with enabled := true, start_ns := env.now },
        if env.subscribeRet = CuptiResult.maxLimitReached then
          [ "CUPTI subcriber limit reached." ]
        else if env.subscribeRet ≠ CuptiResult.success then
          [ "Failed to create CUPTI subscriber." ]
        else []) := by
  simp [Enable, hdis, hact, hreg, hcb, hts]

/-- Witness for the amended C6 theorem at the concrete failing-subscribe
environment. -/
theorem enable_subscribe_failure_warns_and_continues_witness :
    initialState.enabled = false ∧
    env6.activityRet = CuptiResult.success ∧
    env6.registerRet = CuptiResult.success ∧
    env6.enableCallbackRet = CuptiResult.success ∧
    env6.timestampRet = CuptiResult.success ∧
    Enable initialState env6 =
      some ({ initialState with enabled := true, start_ns := env6.now },
        if env6.subscribeRet = CuptiResult.maxLimitReached then
          [ "CUPTI subcriber limit reached." ]
        else if env6.subscribeRet ≠ CuptiResult.success then
          [ "Failed to create CUPTI subscriber." ]
        else []) :=
  ⟨rfl, rfl, rfl, rfl, rfl,
   enable_subscribe_failure_warns_and_continues initialState env6
     rfl rfl rfl rfl rfl⟩

/-- C7: on a driver-API cuLaunchKernel enter notification, the callback
inserts an entry mapping the notification's correlation id to the calling
thread's current annotation when one is set (`SetCurAnnotation`), and
after `ClearCurAnnotation` to the source-provided symbol name. -/
theorem apiCallback_enter_inserts (cbInfo : CallbackData)
    (s : TracerState) (h : cbInfo.callbackSite = CallbackSite.enter) :
    (∀ a : String,
      mapFind (ApiCallback (SetCurAnno a) CallbackDomain.driverApi
          CallbackId.cuLaunchKernel cbInfo s).correlations
        cbInfo.correlationId = some a) ∧
    mapFind (ApiCallback ClearCurAnno CallbackDomain.driverApi
        CallbackId.cuLaunchKernel cbInfo s).correlations
      cbInfo.correlationId = some cbInfo.symbolName := by
  constructor
  · intro a
    simp [ApiCallback, h, SetCurAnno, AddAnno, mapFind_mapInsert_self]
  · simp [ApiCallback, h, ClearCurAnno, AddAnno, mapFind_mapInsert_self]

/-- Witness for the C7 theorem at a concrete enter notification. -/
theorem apiCallback_enter_inserts_witness :
    ({ callbackSite := CallbackSite.enter, symbolName := "sym42",
       correlationId := 42 } : CallbackData).callbackSite =
        CallbackSite.enter ∧
    ((∀ a : String,
      mapFind (ApiCallback (SetCurAnno a) CallbackDomain.driverApi
          CallbackId.cuLaunchKernel
          { callbackSite := CallbackSite.enter, symbolName := "sym42",
            correlationId := 42 } initialState).correlations
        42 = some a) ∧
    mapFind (ApiCallback ClearCurAnno CallbackDomain.driverApi
        CallbackId.cuLaunchKernel
        { callbackSite := CallbackSite.enter, symbolName := "sym42",
          correlationId := 42 } initialState).correlations
      42 = some "sym42") :=
  ⟨rfl,
   apiCallback_enter_inserts
     { callbackSite := CallbackSite.enter, symbolName := "sym42",
       correlationId := 42 } initialState rfl⟩

/-- C8: the dummy tracer of the CUPTI-less build is inert: Enable,
Disable, AddAnnotation and AddKernelRecords leave its (empty) state
unchanged, IsEnabled is false in every state, and GenProfile returns a
report with zero events. -/
theorem dummy_tracer_inert (s : DummyState) :
    DummyEnable s = s ∧ DummyDisable s = s ∧
    (∀ (id : Nat) (anno : String), DummyAddAnno s id anno = s) ∧
    (∀ a b c d e : Nat, DummyAddKernelRecords s a b c d e = s) ∧
    DummyIsEnabled s = false ∧
    (DummyGenProfile s).events = [] :=
  ⟨rfl, rfl, fun _ _ => rfl, fun _ _ _ _ _ => rfl, rfl, rfl⟩

/-- C9: when every record of the log satisfies end_ns ≥ start_ns (and
fits in uint64), every emitted event's copied pair satisfies
end_ns ≥ start_ns, and every duration pushed into the per-name aggregate
is the plain difference end_ns - start_ns of a record of the log — in
particular it is a non-negative quantity. -/
theorem genProfile_duration_nonneg (s : TracerState)
    (h : ∀ r ∈ s.kernel_records,
      r.start_ns ≤ r.end_ns ∧ r.end_ns < UINT64_MOD) :
    (∀ e ∈ (GenProfile s).events, e.start_ns ≤ e.end_ns) ∧
    (∀ (name : String) (d : Nat),
      d ∈ eventTimesFor s.correlations name s.kernel_records →
      ∃ r ∈ s.kernel_records,
        r.start_ns ≤ r.end_ns ∧ d = r.end_ns - r.start_ns) := by
  constructor
  · intro e he
    have he2 : e ∈ genEvents s.correlations s.kernel_records := he
    obtain ⟨r, hr, anno, hfind, hev⟩ := mem_genEvents he2
    subst hev
    exact (h r hr).1
  · intro name d hd
    obtain ⟨r, hr, hfind, hval⟩ := eventTimesFor_mem hd
    refine ⟨r, hr, (h r hr).1, ?_⟩
    rw [hval, sub64_eq_sub r.end_ns r.start_ns (h r hr).1 (h r hr).2]

/-- Witness for the C9 theorem at a concrete two-record state. -/
theorem genProfile_duration_nonneg_witness :
    (∀ r ∈ c9State.kernel_records,
      r.start_ns ≤ r.end_ns ∧ r.end_ns < UINT64_MOD) ∧
    ((∀ e ∈ (GenProfile c9State).events, e.start_ns ≤ e.end_ns) ∧
     (∀ (name : String) (d : Nat),
       d ∈ eventTimesFor c9State.correlations name c9State.kernel_records →
       ∃ r ∈ c9State.kernel_records,
         r.start_ns ≤ r.end_ns ∧ d = r.end_ns - r.start_ns)) :=
  ⟨by decide, genProfile_duration_nonneg c9State (by decide)⟩

/-- C10: `GenProfile` is read-only on the tracer's members: the state
after the call keeps the kernel record log, the correlation table, the
enabled flag and both session timestamps of the state before it, and two
consecutive calls with no intervening mutation return equal reports. -/
theorem genProfile_read_only (s : TracerState) :
    (GenProfileStep s).2.kernel_records = s.kernel_records ∧
    (GenProfileStep s).2.correlations = s.correlations ∧
    (GenProfileStep s).2.enabled = s.enabled ∧
    (GenProfileStep s).2.start_ns = s.start_ns ∧
    (GenProfileStep s).2.end_ns = s.end_ns ∧
    (GenProfileStep (GenProfileStep s).2).1 = (GenProfileStep s).1 :=
  ⟨rfl, rfl, rfl, rfl, rfl, rfl⟩

end DeviceTracer
